import Mathlib

/-!
Shallow embedding of `pkg/virt-launcher/virtwrap/converter/network.go`
(KubeVirt network interface domain converter) and verification of its
specification.

Conventions of the embedding:
* Go pointer-valued binding fields (`iface.SRIOV`, `iface.Bridge`, ...)
  whose pointees are never read by this file are modelled as `Bool`
  ("the pointer is non-nil").
* Go `(value, error)` returns become `Except String value`.
* A Go nil-pointer dereference (a runtime panic) is modelled as `none`
  in an outer `Option` layer; a function that cannot panic has no
  `Option` layer.
* Mutation of `domain.Spec.QEMUCmd.QEMUArg` is modelled by threading an
  explicit `api.Domain` value carrying the argument list.
* `fmt.Sprintf("%d", n)` is modelled by `intDecimal`, a structurally
  recursive decimal renderer defined below.
-/

set_option autoImplicit false

namespace KubeVirtNet

/-! ## Generic string helpers modelling the Go standard library calls -/

/-- Go `strings.Split(s, sep)` for a single-character separator, on the
underlying character list.  Always returns at least one (possibly empty)
segment, like the Go function. -/
def splitChar (c : Char) : List Char → List (List Char)
  | [] => [[]]
  | x :: xs =>
    if x = c then
      [] :: splitChar c xs
    else
      match splitChar c xs with
      | [] => [[x]]
      | h :: t => (x :: h) :: t

/-- The final segment of a character list with respect to a separator:
the maximal suffix that does not contain the separator. -/
def lastSeg (c : Char) : List Char → List Char
  | [] => []
  | x :: xs => if x = c ∨ c ∈ xs then lastSeg c xs else x :: xs

/-- Decimal digit characters of a natural number, most significant first;
`fuel` bounds the recursion so the definition is structural. -/
def natDecimalCharsAux : Nat → Nat → List Char
  | 0, _ => []
  | fuel + 1, n =>
    if n < 10 then [Nat.digitChar n]
    else natDecimalCharsAux fuel (n / 10) ++ [Nat.digitChar (n % 10)]

/-- Decimal digit characters of a natural number, most significant first. -/
def natDecimalChars (n : Nat) : List Char :=
  natDecimalCharsAux (n + 1) n

/-- Go `fmt.Sprintf("%d", i)` for a (possibly negative) integer. -/
def intDecimal (i : Int) : String :=
  if i < 0 then "-" ++ String.mk (natDecimalChars i.natAbs)
  else String.mk (natDecimalChars i.toNat)

/-- ASCII lowercase of one character, modelling Go `strings.ToLower`
on the ASCII protocol names that occur here. -/
def charToLower (c : Char) : Char :=
  if 'A' ≤ c ∧ c ≤ 'Z' then Char.ofNat (c.toNat + 32) else c

/-- Go `strings.ToLower` (ASCII). -/
def stringToLower (s : String) : String :=
  String.mk (s.data.map charToLower)

/-! ## The `v1` API data model (input spec types used by network.go) -/

namespace v1

/-- `v1.MultusNetwork`: a secondary-capable network attachment source. -/
structure MultusNetwork where
  networkName : String
  default : Bool
  deriving DecidableEq

/-- `v1.PodNetwork`: the pod default network source. -/
structure PodNetwork where
  vmNetworkCIDR : String
  deriving DecidableEq

/-- `v1.Network`: a named network with (at most) one source kind set. -/
structure Network where
  name : String
  pod : Option PodNetwork
  multus : Option MultusNetwork
  deriving DecidableEq

/-- `v1.Port`: a slirp port forward (fields `Protocol`, `Port`); the
Go `Port` field is an `int32`, modelled as `Int`. -/
structure Port where
  protocol : String
  port : Int
  deriving DecidableEq

/-- `v1.Interface`: the fields of the interface spec read by network.go.
The six binding pointers are modelled as `Bool` (pointer non-nil). -/
structure Interface where
  name : String
  model : String
  pciAddress : String
  bootOrder : Option Nat
  ports : List Port
  sriov : Bool
  bridge : Bool
  masquerade : Bool
  slirp : Bool
  macvtap : Bool
  vhostuser : Bool
  deriving DecidableEq

/-- `v1.VirtualMachineInstance`: the parts of the VMI spec read by
network.go.  `requestedVCPUs` models the value of
`vcpu.CalculateRequestedVCPUs(getCPUTopology(vmi))`, the external vCPU
count function described by the spec ("a vCPU-count function keyed by
the spec's CPU topology"), whose implementation is outside this file. -/
structure VirtualMachineInstance where
  networks : List Network
  interfaces : List Interface
  networkInterfaceMultiQueue : Option Bool
  requestedVCPUs : Nat
  deriving DecidableEq

end v1

/-! ## The `api` domain model (output types used by network.go) -/

namespace api

/-- `api.Model` (the `Model` element of a domain interface). -/
structure Model where
  type : String
  deriving DecidableEq

/-- `api.Alias`: `NewUserDefinedAlias(name)` stores the interface name. -/
structure Alias where
  aliasName : String
  deriving DecidableEq

/-- `api.BootOrder`. -/
structure BootOrder where
  order : Nat
  deriving DecidableEq

/-- `api.Rom`. -/
structure Rom where
  enabled : String
  deriving DecidableEq

/-- `api.InterfaceDriver`: `Name` is a plain Go string (zero value `""`),
`Queues`, `RxQueueSize` and `TxQueueSize` are nilable pointers. -/
structure InterfaceDriver where
  name : String
  queues : Option Nat
  rxQueueSize : Option Nat
  txQueueSize : Option Nat
  deriving DecidableEq

/-- `api.InterfaceSource` (struct value inside `api.Interface`; its Go
zero value is three empty strings). -/
structure InterfaceSource where
  type : String
  path : String
  mode : String
  deriving DecidableEq

/-- `api.InterfaceTarget`. -/
structure InterfaceTarget where
  device : String
  deriving DecidableEq

/-- `api.Address`: the structured PCI address produced by
`device.NewPciAddressField`. -/
structure Address where
  domain : String
  bus : String
  slot : String
  function : String
  deriving DecidableEq

/-- `api.Interface`: an emitted domain interface record. -/
structure Interface where
  type : String := ""
  model : Option Model := none
  «alias» : Option Alias := none
  driver : Option InterfaceDriver := none
  address : Option Address := none
  bootOrder : Option BootOrder := none
  rom : Option Rom := none
  source : InterfaceSource := { type := "", path := "", mode := "" }
  target : Option InterfaceTarget := none
  deriving DecidableEq

/-- `api.Arg`: one QEMU command line argument. -/
structure Arg where
  value : String
  deriving DecidableEq

/-- `api.Domain`, restricted to the only field network.go mutates:
`domain.Spec.QEMUCmd.QEMUArg`. -/
structure Domain where
  qemuArg : List Arg
  deriving DecidableEq

/-- `api.NewUserDefinedAlias`.  Modelled from the spec: the constructor
lives in the `api` package outside this file; the spec says the base
record carries "alias: interface name". -/
def NewUserDefinedAlias (aliasName : String) : Alias :=
  { aliasName := aliasName }

/-- `api.DefaultProtocol`.  Modelled from the spec: the constant is
defined in the `api` package outside this file; the spec fixes the
default protocol to `TCP`. -/
def DefaultProtocol : String := "TCP"

/-- `api.DefaultVMCIDR`.  Modelled from the spec: the constant is
defined in the `api` package outside this file; the spec only calls it
"a fixed default CIDR", so its concrete value is a representative. -/
def DefaultVMCIDR : String := "10.0.2.0/24"

end api

/-- `nettypes.DeviceInfoTypeVHostUser`.  Modelled from the spec: the
constant comes from the network-attachment-definition client package;
the spec says the matching entry is the one "whose device type is
\x22vhost-user\x22". -/
def DeviceInfoTypeVHostUser : String := "vhost-user"

namespace services

/-- `services.VhostuserSocketDir`.  Modelled from the spec: the constant
is defined in the `virt-controller/services` package outside this file;
the spec only calls it "a known socket-directory base", so its concrete
value is a representative. -/
def VhostuserSocketDir : String := "/var/lib/cni/usrspcni/"

end services

/-- One entry of `c.PodNetInterfaces.Interface`, flattening the nested
`iface.NetworkStatus.Name` and `iface.NetworkStatus.DeviceInfo.VhostUser`
fields read by `getVhostuserInfo`. -/
structure PodNetInterface where
  deviceType : String
  networkStatusName : String
  vhostUserPath : String
  vhostUserMode : String
  deriving DecidableEq

/-- `ConverterContext`, restricted to the data network.go reads.
`resolvConf` models the external read of `/etc/resolv.conf` performed by
`GetResolvConfDetailsFromPod` (spec: "a resolver-configuration read
returning (nameservers, searchDomains) or an I/O error");
`multiQueueMaxQueues` models the package constant of that name, defined
outside this file (spec: "capped at a fixed hardware/tap-device
maximum", value unspecified). -/
structure ConverterContext where
  podNetInterfaces : Option (List PodNetInterface)
  resolvConf : Except String (List String × List String)
  multiQueueMaxQueues : Nat

/-! ## The converter functions of network.go -/

/-- `PrimaryPodInterfaceName` (network.go line 40). -/
def PrimaryPodInterfaceName : String := "eth0"

/-- `getInterfaceType` (network.go lines 162-175). -/
def getInterfaceType (iface : v1.Interface) : String :=
  if iface.slirp then
    -- Slirp configuration works only with e1000 or rtl8139
    if iface.model != "e1000" && iface.model != "rtl8139" then "e1000"
    else iface.model
  else if iface.model != "" then iface.model
  else "virtio"

/-- Holds exactly when `getInterfaceType` takes the branch that logs
"The network interface type of ... was changed to e1000 due to
unsupported interface type by qemu slirp network" (network.go line 166),
i.e. the non-fatal model-downgrade warning. -/
def getInterfaceTypeWarning (iface : v1.Interface) : Bool :=
  iface.slirp && (iface.model != "e1000" && iface.model != "rtl8139")

/-- `validateNetworksTypes` (network.go lines 177-187). -/
def validateNetworksTypes : List v1.Network → Except String Unit
  | [] => .ok ()
  | network :: rest =>
    match network.pod, network.multus with
    | some _, some _ => .error s!"network {network.name} must have only one network type"
    | none, none => .error s!"network {network.name} must have a network type"
    | _, _ => validateNetworksTypes rest

/-- `indexNetworksByName` (network.go lines 189-195): a name-keyed map
with Go-map insertion semantics (a later network with the same name
overwrites an earlier one). -/
def indexNetworksByName (networks : List v1.Network) (name : String) : Option v1.Network :=
  networks.foldl (fun acc network => if network.name == name then some network else acc) none

/-- `translateModel`.  Modelled from the spec: the function is defined
in converter.go outside this file; the spec constructs the base record
as "{modelType: effective model, alias: interface name}", i.e. the
effective model is carried over unchanged. -/
def translateModel (_c : ConverterContext) (model : String) : String := model

/-- `CalculateNetworkQueues` (network.go lines 221-230).  The requested
vCPU count comes from the external vCPU function (modelled by the field
`requestedVCPUs`); the cap `multiQueueMaxQueues` is a package constant
defined outside this file and is passed explicitly here. -/
def CalculateNetworkQueues (vmi : v1.VirtualMachineInstance) (multiQueueMaxQueues : Nat) : Nat :=
  let queueNumber := vmi.requestedVCPUs
  if queueNumber > multiQueueMaxQueues then multiQueueMaxQueues else queueNumber

/-- A decimal number given as characters, or `none`. -/
def decCharsToNat? : List Char → Option Nat
  | [] => none
  | l => l.foldl (fun acc c => match acc with
      | none => none
      | some n => if c.isDigit then some (10 * n + (c.toNat - 48)) else none)
      (some 0)

/-- `net.ParseCIDR` validity.  Modelled from the spec: the parse is done
by the Go standard library; the spec only requires the configured CIDR
to be "parseable", modelled here as IPv4 `a.b.c.d/n` with in-range
components. -/
def parseCIDRok (s : String) : Bool :=
  match splitChar '/' s.data with
  | [ip, mask] =>
    (match decCharsToNat? mask with
     | some m => m ≤ 32
     | none => false) &&
    (match splitChar '.' ip with
     | [a, b, c, d] => [a, b, c, d].all fun comp =>
        match decCharsToNat? comp with
        | some n => n ≤ 255
        | none => false
     | _ => false)
  | _ => false

/-- `device.NewPciAddressField`.  Modelled from the spec: the parser is
defined in the `device` package outside this file; the spec says an
explicit PCI address string is parsed "into a structured address" and a
parse failure is a fatal configuration error.  The accepted shape is the
usual `dddd:bb:ss.f` hexadecimal form. -/
def NewPciAddressField (pciAddress : String) : Except String api.Address :=
  let isHex := fun (l : List Char) => l.all fun c =>
    c.isDigit || ('a' ≤ c && c ≤ 'f') || ('A' ≤ c && c ≤ 'F')
  match splitChar ':' pciAddress.data with
  | [dom, bus, rest] =>
    match splitChar '.' rest with
    | [slot, fn] =>
      if dom.length = 4 && bus.length = 2 && slot.length = 2 && fn.length = 1 &&
          isHex dom && isHex bus && isHex slot && isHex fn then
        .ok { domain := String.mk dom, bus := String.mk bus,
              slot := String.mk slot, function := String.mk fn }
      else .error s!"invalid pci address {pciAddress}"
    | _ => .error s!"invalid pci address {pciAddress}"
  | _ => .error s!"invalid pci address {pciAddress}"

/-- The loop body of `configPortForward` (network.go lines 239-254),
threading the accumulated argument value and the `configuredPorts`
dedup set (a list of `"<protocol>-<port>"` keys). -/
def configPortForwardGo (qemuArgValue : String) (configuredPorts : List String) :
    List v1.Port → Except String String
  | [] => .ok qemuArgValue
  | forwardPort :: rest =>
    if forwardPort.port = 0 then .error "Port must be configured"
    else
      let protocol := if forwardPort.protocol = "" then api.DefaultProtocol
        else forwardPort.protocol
      let portStr := intDecimal forwardPort.port
      let portConfig := protocol ++ "-" ++ portStr
      if portConfig ∈ configuredPorts then
        configPortForwardGo qemuArgValue configuredPorts rest
      else
        let protoLower := stringToLower protocol
        configPortForwardGo
          (qemuArgValue ++ s!",hostfwd={protoLower}::{portStr}-:{portStr}")
          (portConfig :: configuredPorts) rest

/-- `configPortForward` (network.go lines 232-257).  The Go function
mutates `qemuArg.Value`; here the value is threaded explicitly.  The Go
early return on a nil `Ports` slice coincides with iterating an empty
list. -/
def configPortForward (qemuArgValue : String) (iface : v1.Interface) : Except String String :=
  configPortForwardGo qemuArgValue [] iface.ports

/-- `configVMCIDR` (network.go lines 259-275).  The Go code dereferences
`network.Pod` unconditionally: for a network without a pod source this
is a nil-pointer dereference, modelled as `none`. -/
def configVMCIDR (qemuArgValue : String) (network : v1.Network) :
    Option (Except String String) :=
  match network.pod with
  | none => none
  | some pod =>
    if pod.vmNetworkCIDR != "" then
      if parseCIDRok pod.vmNetworkCIDR then
        some (.ok (qemuArgValue ++ s!",net={pod.vmNetworkCIDR}"))
      else some (.error s!"Failed parsing CIDR {pod.vmNetworkCIDR}")
    else some (.ok (qemuArgValue ++ s!",net={api.DefaultVMCIDR}"))

/-- `configDNSSearchName` (network.go lines 277-287), with the
`GetResolvConfDetailsFromPod` file read modelled by the context field
`resolvConf` (nameservers are ignored by this function). -/
def configDNSSearchName (c : ConverterContext) (qemuArgValue : String) :
    Except String String :=
  match c.resolvConf with
  | .error e => .error e
  | .ok (_, dnsDoms) =>
    .ok (dnsDoms.foldl (fun acc dom => acc ++ s!",dnssearch={dom}") qemuArgValue)

/-- `createSlirpNetwork` (network.go lines 197-219): builds the single
`user,id=...` value and, on success, appends the `-netdev` argument pair
to the domain.  The `Option` layer propagates the possible nil-pointer
dereference of `configVMCIDR`. -/
def createSlirpNetwork (c : ConverterContext) (iface : v1.Interface)
    (network : v1.Network) (domain : api.Domain) :
    Option (Except String api.Domain) :=
  match configVMCIDR s!"user,id={iface.name}" network with
  | none => none
  | some (.error e) => some (.error e)
  | some (.ok va) =>
    match configDNSSearchName c va with
    | .error e => some (.error e)
    | .ok vb =>
      match configPortForward vb iface with
      | .error e => some (.error e)
      | .ok vc =>
        some (.ok { domain with
          qemuArg := domain.qemuArg ++ [{ value := "-netdev" }, { value := vc }] })

/-- `isSecondaryMultusNetwork` (network.go lines 349-351). -/
def isSecondaryMultusNetwork (net : v1.Network) : Bool :=
  match net.multus with
  | some multus => !multus.default
  | none => false

/-- The loop of `findMultusIndex` (network.go lines 335-347), threading
the running `idxMultus` counter. -/
def findMultusIndexGo (name : String) : Int → List v1.Network → Int
  | _, [] => -1
  | idxMultus, network :: rest =>
    if isSecondaryMultusNetwork network then
      -- multus pod interfaces start from 1
      if network.name == name then idxMultus + 1
      else findMultusIndexGo name (idxMultus + 1) rest
    else findMultusIndexGo name idxMultus rest

/-- `findMultusIndex` (network.go lines 335-347). -/
def findMultusIndex (vmi : v1.VirtualMachineInstance) (networkToFind : v1.Network) : Int :=
  findMultusIndexGo networkToFind.name 0 vmi.networks

/-- `ComposePodInterfaceName` (network.go lines 313-323). -/
def ComposePodInterfaceName (vmi : v1.VirtualMachineInstance) (network : v1.Network) :
    Except String String :=
  if isSecondaryMultusNetwork network then
    let multusIndex := findMultusIndex vmi network
    if multusIndex = -1 then .error s!"Network name {network.name} not found"
    else .ok ("net" ++ intDecimal multusIndex)
  else .ok PrimaryPodInterfaceName

/-- `FindInterfaceByNetworkName` (network.go lines 326-333): the first
interface whose name equals the network name, or `none` (a Go nil
pointer). -/
def FindInterfaceByNetworkName (vmi : v1.VirtualMachineInstance) (network : v1.Network) :
    Option v1.Interface :=
  vmi.interfaces.find? (fun iface => iface.name == network.name)

/-- The loop of `getPodInterfaceName` (network.go lines 353-369).  The
Go code reads `iface.Name` without a nil check on the result of
`FindInterfaceByNetworkName`; a `none` there is a nil-pointer
dereference, modelled by returning `none`. -/
def getPodInterfaceNameGo (vmi : v1.VirtualMachineInstance) (ifaceName : String) :
    List v1.Network → Option (Except String String)
  | [] => some (.error s!"Interface {ifaceName} not found")
  | network :: rest =>
    match network.pod, network.multus with
    | none, none => getPodInterfaceNameGo vmi ifaceName rest
    | _, _ =>
      match FindInterfaceByNetworkName vmi network with
      | none => none
      | some iface =>
        if iface.name == ifaceName then some (ComposePodInterfaceName vmi network)
        else getPodInterfaceNameGo vmi ifaceName rest

/-- `getPodInterfaceName` (network.go lines 353-369). -/
def getPodInterfaceName (vmi : v1.VirtualMachineInstance) (ifaceName : String) :
    Option (Except String String) :=
  getPodInterfaceNameGo vmi ifaceName vmi.networks

/-- `getVhostuserInfo` (network.go lines 371-387): the socket path and
mode of the first discovered pod interface of device type `vhost-user`
whose network status name, stripped of everything before the last `/`,
equals the pod interface name. -/
def getVhostuserInfo (ifaceName : String) (c : ConverterContext) :
    Except String (String × String) :=
  match c.podNetInterfaces with
  | none => .error "PodNetInterfaces cannot be nil for vhostuser interface"
  | some ifaces =>
    match ifaces.find? (fun iface =>
        iface.deviceType == DeviceInfoTypeVHostUser &&
        String.mk ((splitChar '/' iface.networkStatusName.data).getLastD []) == ifaceName) with
    | some iface => .ok (iface.vhostUserPath, iface.vhostUserMode)
    | none => .error s!"Unable to get vhostuser interface info for {ifaceName}"

/-- The pod interface name actually used by the vhost-user branch: the
resolved name on success, and the Go zero value `""` when
`getPodInterfaceName` returned an error (the error is only logged,
network.go lines 128-131). -/
def podNameOrEmpty : Except String String → String
  | .ok s => s
  | .error _ => ""

/-- One iteration of the interface loop of `createDomainInterfaces`
(network.go lines 61-156), for a non-SR-IOV interface whose network was
resolved: builds the domain interface record and threads the domain
(mutated only by the slirp branch).  `none` models a runtime panic
reached through `getPodInterfaceName` or `configVMCIDR`. -/
def processIface (c : ConverterContext) (virtioNetProhibited : Bool)
    (vmi : v1.VirtualMachineInstance) (iface : v1.Interface) (net : v1.Network)
    (domain : api.Domain) : Option (Except String (api.Interface × api.Domain)) :=
  let ifaceType := getInterfaceType iface
  let domainIface : api.Interface :=
    { model := some { type := translateModel c ifaceType },
      «alias» := some (api.NewUserDefinedAlias iface.name) }
  let virtioNetMQRequested :=
    match vmi.networkInterfaceMultiQueue with
    | some mq => mq
    | none => false
  -- network.go line 75: the original message quotes the device node name
  if ifaceType == "virtio" && virtioNetProhibited then
    some (.error "In-kernel virtio-net device emulation /dev/vhost-net not present")
  else
    let domainIface1 :=
      if ifaceType == "virtio" && virtioNetMQRequested then
        { domainIface with driver := some {
            name := "vhost",
            queues := some (CalculateNetworkQueues vmi c.multiQueueMaxQueues),
            rxQueueSize := none, txQueueSize := none } }
      else domainIface
    -- Add a pciAddress if specified; when none is given the `Address`
    -- field keeps its nil zero value, so binding the optional address
    -- is the same as conditionally assigning the field.
    let addrStep : Except String (Option api.Address) :=
      if iface.pciAddress != "" then
        match NewPciAddressField iface.pciAddress with
        | .error e => .error s!"failed to configure interface {iface.name}: {e}"
        | .ok addr => .ok (some addr)
      else .ok none
    match addrStep with
    | .error e => some (.error e)
    | .ok addrOpt =>
      let dIface : api.Interface := { domainIface1 with address := addrOpt }
      if iface.bridge || iface.masquerade then
        -- use "ethernet" interface type, since we're using pre-configured tap devices
        some (.ok (
          (match iface.bootOrder with
           | some order => { dIface with type := "ethernet", bootOrder := some { order := order } }
           | none => { dIface with type := "ethernet", rom := some { enabled := "no" } }),
          domain))
      else if iface.slirp then
        match createSlirpNetwork c iface net domain with
        | none => none
        | some (.error e) => some (.error e)
        | some (.ok domain2) => some (.ok ({ dIface with type := "user" }, domain2))
      else if iface.macvtap then
        match net.multus with
        | none => some (.error s!"macvtap interface {iface.name} requires Multus meta-cni")
        | some _ =>
          some (.ok (
            (match iface.bootOrder with
             | some order => { dIface with type := "ethernet", bootOrder := some { order := order } }
             | none => { dIface with type := "ethernet", rom := some { enabled := "no" } }),
            domain))
      else if iface.vhostuser then
        match getPodInterfaceName vmi iface.name with
        | none => none
        | some r =>
          let podInterfaceName := podNameOrEmpty r
          match getVhostuserInfo podInterfaceName c with
          | .error e => some (.error e)
          | .ok pathAndMode =>
            let vhostPath := pathAndMode.1
            let vhostMode := pathAndMode.2
            let vhostPathParts := splitChar '/' vhostPath.data
            let vhostDevice := String.mk (vhostPathParts.getLastD [])
            let vhostPath2 :=
              if vhostPathParts.length = 1 then services.VhostuserSocketDir ++ vhostPath
              else vhostPath
            some (.ok ({ dIface with
              type := "vhostuser",
              source := { type := "unix", path := vhostPath2, mode := vhostMode },
              target := some { device := vhostDevice },
              driver := some { name := "", queues := none,
                               rxQueueSize := some 1024, txQueueSize := some 1024 } },
              domain))
      else
        some (.ok (dIface, domain))

/-- The interface loop of `createDomainInterfaces` (network.go lines
51-157): resolves each interface name in the index, skips SR-IOV
interfaces and appends one record per remaining interface; the first
error aborts with the domain in its state at that point. -/
def createDomainInterfacesLoop (c : ConverterContext) (virtioNetProhibited : Bool)
    (vmi : v1.VirtualMachineInstance) :
    List v1.Interface → api.Domain →
    Option (Except String (List api.Interface) × api.Domain)
  | [], domain => some (.ok [], domain)
  | iface :: rest, domain =>
    match indexNetworksByName vmi.networks iface.name with
    | none => some (.error s!"failed to find network {iface.name}", domain)
    | some net =>
      if iface.sriov then
        createDomainInterfacesLoop c virtioNetProhibited vmi rest domain
      else
        match processIface c virtioNetProhibited vmi iface net domain with
        | none => none
        | some (.error e) => some (.error e, domain)
        | some (.ok (domainIface, domain2)) =>
          match createDomainInterfacesLoop c virtioNetProhibited vmi rest domain2 with
          | none => none
          | some (.error e, d) => some (.error e, d)
          | some (.ok l, d) => some (.ok (domainIface :: l), d)

/-- `createDomainInterfaces` (network.go lines 42-160).  The result pair
models the Go multiple return `([]api.Interface, error)` together with
the caller-visible state of the (pointer-passed) domain; `none` models a
runtime panic. -/
def createDomainInterfaces (vmi : v1.VirtualMachineInstance) (domain : api.Domain)
    (c : ConverterContext) (virtioNetProhibited : Bool) :
    Option (Except String (List api.Interface) × api.Domain) :=
  match validateNetworksTypes vmi.networks with
  | .error e => some (.error e, domain)
  | .ok _ => createDomainInterfacesLoop c virtioNetProhibited vmi vmi.interfaces domain

/-- Decimal value of a digit character list, used only to prove
injectivity of the decimal rendering. -/
def digitsVal (l : List Char) : Nat :=
  l.foldl (fun acc c => 10 * acc + (c.toNat - 48)) 0


/-- The port-forward clause string described by the spec: for each
forward, default an empty protocol to TCP; deduplicate by the
(protocol, port) pair within the interface; append one
`,hostfwd=<lowercase protocol>::<port>-:<port>` clause per unique pair
in first-seen order.  This definition follows the spec wording (pair
based dedup), to be compared with `configPortForward`, whose dedup is
keyed on the rendered `<protocol>-<port>` string. -/
def specHostfwdClauses : List v1.Port → List (String × Int) → String
  | [], _ => ""
  | forwardPort :: rest, seen =>
    let protocol := if forwardPort.protocol = "" then api.DefaultProtocol
      else forwardPort.protocol
    if (protocol, forwardPort.port) ∈ seen then specHostfwdClauses rest seen
    else
      let protoLower := stringToLower protocol
      let portStr := intDecimal forwardPort.port
      s!",hostfwd={protoLower}::{portStr}-:{portStr}" ++
        specHostfwdClauses rest ((protocol, forwardPort.port) :: seen)

def c1vmi : v1.VirtualMachineInstance := {
  networks := [
    { name := "a", pod := some { vmNetworkCIDR := "" }, multus := none },
    { name := "b", pod := none, multus := some { networkName := "nad", default := false } }],
  interfaces := [
    { name := "a", model := "", pciAddress := "", bootOrder := none, ports := [],
      sriov := false, bridge := true, masquerade := false, slirp := false,
      macvtap := false, vhostuser := false },
    { name := "b", model := "", pciAddress := "", bootOrder := none, ports := [],
      sriov := true, bridge := false, masquerade := false, slirp := false,
      macvtap := false, vhostuser := false },
    { name := "b", model := "e1000", pciAddress := "", bootOrder := some 2, ports := [],
      sriov := false, bridge := false, masquerade := true, slirp := false,
      macvtap := false, vhostuser := false }],
  networkInterfaceMultiQueue := none, requestedVCPUs := 1 }

def c1ctx : ConverterContext :=
  { podNetInterfaces := none, resolvConf := .ok ([], []), multiQueueMaxQueues := 256 }

def c1list : List api.Interface :=
  [{ type := "ethernet", model := some { type := "virtio" },
     «alias» := some (api.NewUserDefinedAlias "a"), rom := some { enabled := "no" } },
   { type := "ethernet", model := some { type := "e1000" },
     «alias» := some (api.NewUserDefinedAlias "b"), bootOrder := some { order := 2 } }]

def c2vmi : v1.VirtualMachineInstance := {
  networks := [
    { name := "p0", pod := some { vmNetworkCIDR := "" }, multus := none },
    { name := "m1", pod := none, multus := some { networkName := "nad1", default := false } },
    { name := "md", pod := none, multus := some { networkName := "nadd", default := true } },
    { name := "m2", pod := none, multus := some { networkName := "nad2", default := false } }],
  interfaces := [], networkInterfaceMultiQueue := none, requestedVCPUs := 1 }

def c2netp : v1.Network := { name := "p0", pod := some { vmNetworkCIDR := "" }, multus := none }

def c2netm2 : v1.Network :=
  { name := "m2", pod := none, multus := some { networkName := "nad2", default := false } }

def c8vmi : v1.VirtualMachineInstance := {
  networks := [
    { name := "n1", pod := some { vmNetworkCIDR := "" }, multus := none },
    { name := "n2", pod := some { vmNetworkCIDR := "" }, multus := none }],
  interfaces := [
    { name := "n1", model := "", pciAddress := "", bootOrder := none, ports := [],
      sriov := false, bridge := false, masquerade := false, slirp := true,
      macvtap := false, vhostuser := false },
    { name := "n2", model := "", pciAddress := "", bootOrder := none, ports := [],
      sriov := false, bridge := false, masquerade := false, slirp := false,
      macvtap := true, vhostuser := false }],
  networkInterfaceMultiQueue := none, requestedVCPUs := 1 }

def c8ctx : ConverterContext :=
  { podNetInterfaces := none, resolvConf := .ok ([], []), multiQueueMaxQueues := 256 }

def c8dom : api.Domain :=
  { qemuArg := [{ value := "-netdev" }, { value := "user,id=n1,net=10.0.2.0/24" }] }

def c4iface : v1.Interface :=
  { name := "testnet", model := "", pciAddress := "", bootOrder := none,
    ports := [{ protocol := "", port := 80 }, { protocol := "TCP", port := 80 }],
    sriov := false, bridge := false, masquerade := false, slirp := true,
    macvtap := false, vhostuser := false }

def c4exotic : v1.Interface :=
  { name := "x", model := "", pciAddress := "", bootOrder := none,
    ports := [{ protocol := "A-", port := 2 }, { protocol := "A", port := -2 }],
    sriov := false, bridge := false, masquerade := false, slirp := true,
    macvtap := false, vhostuser := false }

def c6iface : v1.Interface :=
  { name := "s1", model := "virtio", pciAddress := "", bootOrder := none, ports := [],
    sriov := false, bridge := false, masquerade := false, slirp := true,
    macvtap := false, vhostuser := false }

def c6net : v1.Network := { name := "s1", pod := some { vmNetworkCIDR := "" }, multus := none }

def c6vmi : v1.VirtualMachineInstance :=
  { networks := [c6net], interfaces := [c6iface],
    networkInterfaceMultiQueue := none, requestedVCPUs := 1 }

def c6ctx : ConverterContext :=
  { podNetInterfaces := none, resolvConf := .ok ([], []), multiQueueMaxQueues := 256 }

def c6rec : api.Interface :=
  { type := "user", model := some { type := "e1000" },
    «alias» := some (api.NewUserDefinedAlias "s1") }

def c6dom : api.Domain :=
  { qemuArg := [{ value := "-netdev" }, { value := "user,id=s1,net=10.0.2.0/24" }] }

def vhostDriverFixed : api.InterfaceDriver :=
  { name := "", queues := none, rxQueueSize := some 1024, txQueueSize := some 1024 }

def c5ctx : ConverterContext :=
  { podNetInterfaces := some
      [{ deviceType := "vhost-user",
         networkStatusName := "ns1/eth0",
         vhostUserPath := "/var/run/vhu/vhu5.sock",
         vhostUserMode := "client" }],
    resolvConf := .ok ([], []),
    multiQueueMaxQueues := 8 }

def c5iface : v1.Interface :=
  { name := "default", model := "", pciAddress := "", bootOrder := none, ports := [],
    sriov := false, bridge := false, masquerade := false, slirp := false,
    macvtap := false, vhostuser := true }

def c5net : v1.Network :=
  { name := "default", pod := some { vmNetworkCIDR := "" }, multus := none }

def c5vmi : v1.VirtualMachineInstance :=
  { networks := [c5net], interfaces := [c5iface],
    networkInterfaceMultiQueue := some true, requestedVCPUs := 64 }

def c5rec : api.Interface :=
  { type := "vhostuser",
    model := some { type := "virtio" },
    «alias» := some (api.NewUserDefinedAlias "default"),
    driver := some vhostDriverFixed,
    source := { type := "unix", path := "/var/run/vhu/vhu5.sock", mode := "client" },
    target := some { device := "vhu5.sock" } }

def c5wiface : v1.Interface :=
  { name := "b1", model := "", pciAddress := "", bootOrder := none, ports := [],
    sriov := false, bridge := true, masquerade := false, slirp := false,
    macvtap := false, vhostuser := false }

def c5wnet : v1.Network :=
  { name := "b1", pod := some { vmNetworkCIDR := "" }, multus := none }

def c5wvmi : v1.VirtualMachineInstance :=
  { networks := [c5wnet], interfaces := [c5wiface],
    networkInterfaceMultiQueue := some true, requestedVCPUs := 64 }

def c5wrec : api.Interface :=
  { type := "ethernet",
    model := some { type := "virtio" },
    «alias» := some (api.NewUserDefinedAlias "b1"),
    driver := some { name := "vhost", queues := some 8, rxQueueSize := none, txQueueSize := none },
    rom := some { enabled := "no" } }

def c7ctx : ConverterContext :=
  { podNetInterfaces := none, resolvConf := .ok ([], []), multiQueueMaxQueues := 256 }

def c7iface : v1.Interface :=
  { name := "m1", model := "", pciAddress := "", bootOrder := none, ports := [],
    sriov := false, bridge := false, masquerade := false, slirp := false,
    macvtap := true, vhostuser := false }

def c7net : v1.Network :=
  { name := "m1", pod := none, multus := some { networkName := "nadm", default := true } }

def c7vmi : v1.VirtualMachineInstance :=
  { networks := [c7net], interfaces := [c7iface],
    networkInterfaceMultiQueue := none, requestedVCPUs := 1 }

def c7rec : api.Interface :=
  { type := "ethernet", model := some { type := "virtio" },
    «alias» := some (api.NewUserDefinedAlias "m1"), rom := some { enabled := "no" } }

def c7wiface : v1.Interface :=
  { name := "m2", model := "", pciAddress := "", bootOrder := none, ports := [],
    sriov := false, bridge := false, masquerade := false, slirp := false,
    macvtap := true, vhostuser := false }

def c7wnetp : v1.Network :=
  { name := "m2", pod := some { vmNetworkCIDR := "" }, multus := none }

def c7wnetm : v1.Network :=
  { name := "m2", pod := none, multus := some { networkName := "nadm2", default := true } }

def c3ctx : ConverterContext :=
  { podNetInterfaces := some
      [{ deviceType := "vhost-user",
         networkStatusName := "ns1/eth0",
         vhostUserPath := "/var/run/vhu/vhu1.sock",
         vhostUserMode := "server" }],
    resolvConf := .ok ([], []),
    multiQueueMaxQueues := 256 }

def c3iface : v1.Interface :=
  { name := "default", model := "", pciAddress := "", bootOrder := none, ports := [],
    sriov := false, bridge := false, masquerade := false, slirp := false,
    macvtap := false, vhostuser := true }

def c3net : v1.Network :=
  { name := "default", pod := some { vmNetworkCIDR := "" }, multus := none }

def c3vmi : v1.VirtualMachineInstance :=
  { networks := [c3net], interfaces := [c3iface],
    networkInterfaceMultiQueue := none, requestedVCPUs := 1 }

def c3rec : api.Interface :=
  { type := "vhostuser",
    model := some { type := "virtio" },
    «alias» := some (api.NewUserDefinedAlias "default"),
    driver := some vhostDriverFixed,
    source := { type := "unix", path := "/var/run/vhu/vhu1.sock", mode := "server" },
    target := some { device := "vhu1.sock" } }

def c9ctx : ConverterContext :=
  { podNetInterfaces := some
      [{ deviceType := "vhost-user",
         networkStatusName := "",
         vhostUserPath := "/run/vh/s1.sock",
         vhostUserMode := "client" }],
    resolvConf := .ok ([], []),
    multiQueueMaxQueues := 256 }

def c9iface : v1.Interface :=
  { name := "b", model := "", pciAddress := "", bootOrder := none, ports := [],
    sriov := false, bridge := false, masquerade := false, slirp := false,
    macvtap := false, vhostuser := true }

def c9net : v1.Network :=
  { name := "b", pod := some { vmNetworkCIDR := "" }, multus := none }

def c9aIface : v1.Interface :=
  { name := "a", model := "", pciAddress := "", bootOrder := none, ports := [],
    sriov := false, bridge := true, masquerade := false, slirp := false,
    macvtap := false, vhostuser := false }

def c9vmi : v1.VirtualMachineInstance :=
  { networks := [{ name := "a", pod := some { vmNetworkCIDR := "" }, multus := none }],
    interfaces := [c9aIface],
    networkInterfaceMultiQueue := none, requestedVCPUs := 1 }

def c10net : v1.Network :=
  { name := "n1", pod := some { vmNetworkCIDR := "" }, multus := none }

def c10vmi : v1.VirtualMachineInstance :=
  { networks := [c10net], interfaces := [],
    networkInterfaceMultiQueue := none, requestedVCPUs := 1 }

/-! ## Lemmas and claim theorems -/

/-! ## Helper lemmas about the string models -/


theorem splitChar_ne_nil (c : Char) (l : List Char) : splitChar c l ≠ [] := by
  induction l with
  | nil => simp [splitChar]
  | cons x xs ih =>
    simp only [splitChar]
    split
    · simp
    · split
      · simp
      · simp

theorem splitChar_eq_single {c : Char} {l : List Char} (h : c ∉ l) : splitChar c l = [l] := by
  induction l with
  | nil => rfl
  | cons x xs ih =>
    simp only [List.mem_cons, not_or] at h
    simp only [splitChar]
    rw [if_neg (fun hx => h.1 hx.symm)]
    rw [ih h.2]

theorem splitChar_length_one_iff (c : Char) (l : List Char) :
    (splitChar c l).length = 1 ↔ c ∉ l := by
  induction l with
  | nil => simp [splitChar]
  | cons x xs ih =>
    simp only [splitChar, List.mem_cons, not_or]
    by_cases hx : x = c
    · rw [if_pos hx]
      simp only [List.length_cons]
      constructor
      · intro h
        have : splitChar c xs = [] := List.length_eq_zero.1 (by omega)
        exact absurd this (splitChar_ne_nil c xs)
      · intro h
        exact absurd hx.symm h.1
    · rw [if_neg hx]
      cases h : splitChar c xs with
      | nil => exact absurd h (splitChar_ne_nil c xs)
      | cons a t =>
        simp only [List.length_cons]
        have := ih
        rw [h] at this
        simp only [List.length_cons] at this
        constructor
        · intro ht
          exact ⟨fun heq => hx heq.symm, (this.1 (by omega))⟩
        · intro ⟨_, hcx⟩
          have := this.2 hcx
          omega

theorem lastSeg_of_not_mem {c : Char} {l : List Char} (h : c ∉ l) : lastSeg c l = l := by
  cases l with
  | nil => rfl
  | cons x xs =>
    simp only [List.mem_cons, not_or] at h
    simp only [lastSeg]
    rw [if_neg]
    intro hor
    cases hor with
    | inl hx => exact h.1 hx.symm
    | inr hm => exact h.2 hm

theorem splitChar_getLastD (c : Char) (l : List Char) :
    (splitChar c l).getLastD [] = lastSeg c l := by
  induction l with
  | nil => rfl
  | cons x xs ih =>
    simp only [splitChar, lastSeg]
    by_cases hx : x = c
    · rw [if_pos hx, if_pos (Or.inl hx)]
      rw [List.getLastD_cons]
      exact ih
    · rw [if_neg hx]
      by_cases hc : c ∈ xs
      · rw [if_pos (Or.inr hc)]
        cases h : splitChar c xs with
        | nil => exact absurd h (splitChar_ne_nil c xs)
        | cons a t =>
          cases t with
          | nil =>
            have : (splitChar c xs).length = 1 := by rw [h]; rfl
            exact absurd ((splitChar_length_one_iff c xs).1 this) (not_not.2 hc)
          | cons b t2 =>
            rw [← ih, h]
            simp only [List.getLastD_cons]
      · rw [if_neg (by rw [not_or]; exact ⟨fun h => hx h, hc⟩)]
        rw [splitChar_eq_single hc]
        rfl

theorem digitChar_ne_dash {n : Nat} (hn : n < 10) : Nat.digitChar n ≠ '-' := by
  interval_cases n <;> decide

theorem mem_natDecimalCharsAux_ne_dash :
    ∀ fuel n ch, ch ∈ natDecimalCharsAux fuel n → ch ≠ '-' := by
  intro fuel
  induction fuel with
  | zero => intro n ch h; simp [natDecimalCharsAux] at h
  | succ f ih =>
    intro n ch h
    simp only [natDecimalCharsAux] at h
    split at h
    · simp only [List.mem_singleton] at h
      subst h
      exact digitChar_ne_dash ‹n < 10›
    · rw [List.mem_append] at h
      cases h with
      | inl h2 => exact ih _ _ h2
      | inr h2 =>
        simp only [List.mem_singleton] at h2
        subst h2
        exact digitChar_ne_dash (Nat.mod_lt _ (by omega))

theorem mem_natDecimalChars_ne_dash (n : Nat) {ch : Char}
    (h : ch ∈ natDecimalChars n) : ch ≠ '-' :=
  mem_natDecimalCharsAux_ne_dash (n + 1) n ch h

theorem digitChar_toNat_sub (n : Nat) (h : n < 10) : (Nat.digitChar n).toNat - 48 = n := by
  interval_cases n <;> decide

theorem digitsVal_natDecimalCharsAux :
    ∀ fuel n, n < fuel → digitsVal (natDecimalCharsAux fuel n) = n := by
  intro fuel
  induction fuel with
  | zero => intro n hn; omega
  | succ f ih =>
    intro n hn
    simp only [natDecimalCharsAux]
    split
    · rename_i h10
      simp only [digitsVal, List.foldl_cons, List.foldl_nil]
      rw [Nat.mul_zero, Nat.zero_add, digitChar_toNat_sub n h10]
    · rename_i h10
      have hge : 10 ≤ n := by omega
      have hdiv : n / 10 < f := by
        have h1 : n / 10 < n := Nat.div_lt_self (by omega) (by omega)
        omega
      simp only [digitsVal, List.foldl_append, List.foldl_cons, List.foldl_nil]
      have := ih (n / 10) hdiv
      simp only [digitsVal] at this
      rw [this, digitChar_toNat_sub (n % 10) (Nat.mod_lt _ (by omega))]
      omega

theorem natDecimalChars_injective {m n : Nat} (h : natDecimalChars m = natDecimalChars n) :
    m = n := by
  have hm : digitsVal (natDecimalChars m) = m :=
    digitsVal_natDecimalCharsAux (m + 1) m (Nat.lt_succ_self m)
  have hn : digitsVal (natDecimalChars n) = n :=
    digitsVal_natDecimalCharsAux (n + 1) n (Nat.lt_succ_self n)
  rw [← hm, ← hn, h]

theorem append_sep_inj {x : Char} :
    ∀ (a c b d : List Char), a ++ x :: b = c ++ x :: d → x ∉ b → x ∉ d →
    a = c ∧ b = d := by
  intro a
  induction a with
  | nil =>
    intro c b d h hb hd
    cases c with
    | nil =>
      simp only [List.nil_append, List.cons.injEq] at h
      exact ⟨rfl, h.2⟩
    | cons y c2 =>
      simp only [List.nil_append, List.cons_append, List.cons.injEq] at h
      exact absurd (h.2 ▸ List.mem_append_right c2 (List.mem_cons_self x d)) hb
  | cons y a2 ih =>
    intro c b d h hb hd
    cases c with
    | nil =>
      simp only [List.cons_append, List.nil_append, List.cons.injEq] at h
      exact absurd (h.2.symm ▸ List.mem_append_right a2 (List.mem_cons_self x b)) hd
    | cons z c2 =>
      simp only [List.cons_append, List.cons.injEq] at h
      obtain ⟨h1, h2⟩ := h
      obtain ⟨h3, h4⟩ := ih c2 b d h2 hb hd
      exact ⟨by rw [h1, h3], h4⟩

theorem portKey_inj_pos {p1 p2 : String} {n1 n2 : Int} (h1 : 0 < n1) (h2 : 0 < n2)
    (h : p1 ++ "-" ++ intDecimal n1 = p2 ++ "-" ++ intDecimal n2) :
    p1 = p2 ∧ n1 = n2 := by
  have e1 : intDecimal n1 = String.mk (natDecimalChars n1.toNat) := by
    rw [intDecimal, if_neg (by omega)]
  have e2 : intDecimal n2 = String.mk (natDecimalChars n2.toNat) := by
    rw [intDecimal, if_neg (by omega)]
  rw [e1, e2] at h
  have hd := congrArg String.data h
  simp only [String.data_append] at hd
  have hd2 : p1.data ++ '-' :: natDecimalChars n1.toNat =
      p2.data ++ '-' :: natDecimalChars n2.toNat := by
    simpa using hd
  obtain ⟨hp, hn⟩ := append_sep_inj _ _ _ _ hd2
    (fun hm => mem_natDecimalChars_ne_dash _ hm rfl)
    (fun hm => mem_natDecimalChars_ne_dash _ hm rfl)
  refine ⟨String.ext hp, ?_⟩
  have := natDecimalChars_injective hn
  omega

end KubeVirtNet

namespace KubeVirtNet

theorem findMultusIndexGo_eq (name : String) :
    ∀ (l : List v1.Network) (k : Int),
    findMultusIndexGo name k l =
      match (l.filter isSecondaryMultusNetwork).findIdx? (fun n => n.name == name) with
      | some i => k + i + 1
      | none => -1 := by
  intro l
  induction l with
  | nil => intro k; rfl
  | cons network rest ih =>
    intro k
    simp only [findMultusIndexGo, List.filter_cons]
    by_cases hs : isSecondaryMultusNetwork network
    · rw [if_pos hs]
      simp only [hs, if_true, List.findIdx?_cons]
      by_cases hn : network.name == name
      · rw [if_pos hn, hn]
        simp
      · rw [if_neg hn]
        simp only [hn, Bool.false_eq_true, if_false, List.findIdx?_succ]
        rw [ih (k + 1)]
        cases h2 : (rest.filter isSecondaryMultusNetwork).findIdx? (fun n => n.name == name) with
        | none => simp
        | some i =>
          simp only [Option.map_some']
          push_cast
          ring
    · rw [if_neg hs]
      simp only [hs, Bool.false_eq_true, if_false, ih k]

theorem configPortForwardGo_eq_spec :
    ∀ (ports : List v1.Port) (va : String) (seenPairs : List (String × Int)),
    (∀ q ∈ seenPairs, 0 < q.2) →
    (∀ p ∈ ports, 0 < p.port) →
    configPortForwardGo va (seenPairs.map fun q => q.1 ++ "-" ++ intDecimal q.2) ports =
      .ok (va ++ specHostfwdClauses ports seenPairs) := by
  intro ports
  induction ports with
  | nil =>
    intro va seenPairs _ _
    simp [configPortForwardGo, specHostfwdClauses]
  | cons p rest ih =>
    intro va seenPairs hseen hall
    have hp : 0 < p.port := hall p (List.mem_cons_self p rest)
    simp only [configPortForwardGo, specHostfwdClauses]
    rw [if_neg (by omega : ¬ p.port = 0)]
    have hmem :
        ((if p.protocol = "" then api.DefaultProtocol else p.protocol) ++ "-" ++
            intDecimal p.port ∈
          seenPairs.map fun q => q.1 ++ "-" ++ intDecimal q.2) ↔
        ((if p.protocol = "" then api.DefaultProtocol else p.protocol), p.port) ∈ seenPairs := by
      constructor
      · intro h
        obtain Lq := List.mem_map.1 h
        obtain ⟨q, hq, heq⟩ := Lq
        obtain ⟨e1, e2⟩ := portKey_inj_pos (hseen q hq) hp heq
        obtain ⟨q1, q2⟩ := q
        simp only at e1 e2
        rw [← e1, ← e2]
        exact hq
      · intro h
        exact List.mem_map_of_mem (fun q => q.1 ++ "-" ++ intDecimal q.2) h
    by_cases hin :
        ((if p.protocol = "" then api.DefaultProtocol else p.protocol), p.port) ∈ seenPairs
    · rw [if_pos (hmem.2 hin), if_pos hin]
      exact ih va seenPairs hseen fun q hq => hall q (List.mem_cons_of_mem _ hq)
    · rw [if_neg (fun hc => hin (hmem.1 hc)), if_neg hin]
      have hseen2 : ∀ q ∈ (((if p.protocol = "" then api.DefaultProtocol else p.protocol),
          p.port) :: seenPairs), 0 < q.2 := by
        intro q hq
        rcases List.mem_cons.1 hq with h | h
        · rw [h]; exact hp
        · exact hseen q h
      have hall2 : ∀ q ∈ rest, 0 < q.port := fun q hq => hall q (List.mem_cons_of_mem _ hq)
      set prot := (if p.protocol = "" then api.DefaultProtocol else p.protocol) with hprot
      set lowP := stringToLower prot with hlow
      set pStr := intDecimal p.port with hpstr
      have h2 := ih (va ++ s!",hostfwd={lowP}::{pStr}-:{pStr}")
        ((prot, p.port) :: seenPairs) hseen2 hall2
      simp only [List.map_cons] at h2
      simpa [String.append_assoc] using h2

theorem configPortForwardGo_zero :
    ∀ (ports : List v1.Port) (va : String) (seen : List String),
    (∃ p ∈ ports, p.port = 0) →
    configPortForwardGo va seen ports = .error "Port must be configured" := by
  intro ports
  induction ports with
  | nil =>
    intro va seen h
    obtain ⟨p, hp, _⟩ := h
    simp at hp
  | cons q rest ih =>
    intro va seen h
    obtain ⟨p, hp, hz⟩ := h
    simp only [configPortForwardGo]
    by_cases hq : q.port = 0
    · rw [if_pos hq]
    · rw [if_neg hq]
      have hrest : ∃ p ∈ rest, p.port = 0 := by
        rcases List.mem_cons.1 hp with h | h
        · exact absurd (h ▸ hz) hq
        · exact ⟨p, h, hz⟩
      repeat' split
      all_goals exact ih _ _ hrest

/-- C2: the pod interface name resolver is deterministic: for a network
that is not a secondary multi-network (Multus, non-default) attachment
it returns the fixed primary pod interface name, and for a secondary
attachment whose first occurrence among all secondary attachments (in
declaration order) is at 0-based position `i` it returns `net<i+1>`,
regardless of any interface position. -/
theorem composePodInterfaceName_primary_and_secondary :
    (∀ (vmi : v1.VirtualMachineInstance) (network : v1.Network),
      isSecondaryMultusNetwork network = false →
      ComposePodInterfaceName vmi network = .ok PrimaryPodInterfaceName) ∧
    (∀ (vmi : v1.VirtualMachineInstance) (network : v1.Network) (i : Nat),
      isSecondaryMultusNetwork network = true →
      (vmi.networks.filter isSecondaryMultusNetwork).findIdx?
        (fun n => n.name == network.name) = some i →
      ComposePodInterfaceName vmi network = .ok ("net" ++ intDecimal ((i : Int) + 1))) := by
  constructor
  · intro vmi network h
    simp [ComposePodInterfaceName, h]
  · intro vmi network i hsec hidx
    have hfind : findMultusIndex vmi network = (i : Int) + 1 := by
      rw [findMultusIndex, findMultusIndexGo_eq, hidx]
      push_cast
      ring
    simp only [ComposePodInterfaceName, hsec, if_true]
    rw [hfind, if_neg (by omega)]

set_option maxHeartbeats 2000000 in
theorem processIface_alias {c : ConverterContext} {p : Bool} {vmi : v1.VirtualMachineInstance}
    {iface : v1.Interface} {net : v1.Network} {domain : api.Domain}
    {rec : api.Interface} {d2 : api.Domain}
    (h : processIface c p vmi iface net domain = some (.ok (rec, d2))) :
    rec.alias = some (api.NewUserDefinedAlias iface.name) := by
  simp only [processIface] at h
  by_cases hv : (getInterfaceType iface == "virtio" && p) = true
  · rw [if_pos hv] at h
    simp at h
  · rw [if_neg hv] at h
    repeat' split at h
    all_goals simp only [Option.some.injEq, Except.ok.injEq, Prod.mk.injEq,
      reduceCtorEq] at h
    all_goals try (obtain ⟨hrec, hdom⟩ := h; subst hrec; rfl)

set_option maxHeartbeats 2000000 in
theorem processIface_model {c : ConverterContext} {p : Bool} {vmi : v1.VirtualMachineInstance}
    {iface : v1.Interface} {net : v1.Network} {domain : api.Domain}
    {rec : api.Interface} {d2 : api.Domain}
    (h : processIface c p vmi iface net domain = some (.ok (rec, d2))) :
    rec.model = some { type := translateModel c (getInterfaceType iface) } := by
  simp only [processIface] at h
  by_cases hv : (getInterfaceType iface == "virtio" && p) = true
  · rw [if_pos hv] at h
    simp at h
  · rw [if_neg hv] at h
    repeat' split at h
    all_goals simp only [Option.some.injEq, Except.ok.injEq, Prod.mk.injEq,
      reduceCtorEq] at h
    all_goals try (obtain ⟨hrec, hdom⟩ := h; subst hrec)
    all_goals rfl

theorem createSlirpNetwork_qemuArg {c : ConverterContext} {iface : v1.Interface}
    {network : v1.Network} {domain d2 : api.Domain}
    (h : createSlirpNetwork c iface network domain = some (.ok d2)) :
    ∃ extra, d2.qemuArg = domain.qemuArg ++ extra := by
  simp only [createSlirpNetwork] at h
  repeat' split at h
  all_goals simp only [Option.some.injEq, Except.ok.injEq, reduceCtorEq] at h
  all_goals try (subst h; exact ⟨_, rfl⟩)

set_option maxHeartbeats 2000000 in
theorem processIface_qemuArg {c : ConverterContext} {p : Bool} {vmi : v1.VirtualMachineInstance}
    {iface : v1.Interface} {net : v1.Network} {domain : api.Domain}
    {rec : api.Interface} {d2 : api.Domain}
    (h : processIface c p vmi iface net domain = some (.ok (rec, d2))) :
    ∃ extra, d2.qemuArg = domain.qemuArg ++ extra := by
  simp only [processIface] at h
  by_cases hv : (getInterfaceType iface == "virtio" && p) = true
  · rw [if_pos hv] at h
    simp at h
  · rw [if_neg hv] at h
    repeat' split at h
    all_goals simp only [Option.some.injEq, Except.ok.injEq, Prod.mk.injEq,
      reduceCtorEq] at h
    all_goals try (obtain ⟨hrec, hdom⟩ := h; subst hdom)
    all_goals try exact ⟨[], (List.append_nil _).symm⟩
    all_goals (apply createSlirpNetwork_qemuArg; assumption)

theorem createDomainInterfacesLoop_aliases {c : ConverterContext} {p : Bool}
    {vmi : v1.VirtualMachineInstance} :
    ∀ (ifaces : List v1.Interface) (domain : api.Domain) (l : List api.Interface) (d : api.Domain),
    createDomainInterfacesLoop c p vmi ifaces domain = some (.ok l, d) →
    l.map (fun r => r.alias) =
      (ifaces.filter fun i => !i.sriov).map fun i => some (api.NewUserDefinedAlias i.name) := by
  intro ifaces
  induction ifaces with
  | nil =>
    intro domain l d h
    simp only [createDomainInterfacesLoop, Option.some.injEq, Prod.mk.injEq,
      Except.ok.injEq] at h
    rw [← h.1]
    simp
  | cons iface rest ih =>
    intro domain l d h
    simp only [createDomainInterfacesLoop] at h
    cases hlookup : indexNetworksByName vmi.networks iface.name with
    | none =>
      simp only [hlookup] at h
      simp at h
    | some net =>
      simp only [hlookup] at h
      by_cases hsriov : iface.sriov
      · rw [if_pos hsriov] at h
        simp only [List.filter_cons, hsriov, Bool.not_true, if_false, Bool.false_eq_true]
        exact ih domain l d h
      · rw [if_neg hsriov] at h
        cases hpi : processIface c p vmi iface net domain with
        | none =>
          simp only [hpi] at h
          simp at h
        | some res =>
          cases res with
          | error e =>
            simp only [hpi] at h
            simp at h
          | ok pr =>
            obtain ⟨domainIface, domain2⟩ := pr
            simp only [hpi] at h
            cases hrest : createDomainInterfacesLoop c p vmi rest domain2 with
            | none =>
              simp only [hrest] at h
              simp at h
            | some pr2 =>
              obtain ⟨res2, d3⟩ := pr2
              cases res2 with
              | error e =>
                simp only [hrest] at h
                simp at h
              | ok l2 =>
                simp only [hrest] at h
                simp only [Option.some.injEq, Prod.mk.injEq, Except.ok.injEq] at h
                obtain ⟨hl, hd⟩ := h
                subst hl
                have hb : iface.sriov = false := by
                  cases hs2 : iface.sriov
                  · rfl
                  · exact absurd hs2 hsriov
                simp only [List.map_cons, List.filter_cons, hb, Bool.not_false, if_true]
                rw [processIface_alias hpi]
                rw [ih domain2 l2 d3 hrest]

theorem createDomainInterfacesLoop_error_qemuArg {c : ConverterContext} {p : Bool}
    {vmi : v1.VirtualMachineInstance} :
    ∀ (ifaces : List v1.Interface) (domain : api.Domain) (e : String) (d : api.Domain),
    createDomainInterfacesLoop c p vmi ifaces domain = some (.error e, d) →
    ∃ extra, d.qemuArg = domain.qemuArg ++ extra := by
  intro ifaces
  induction ifaces with
  | nil =>
    intro domain e d h
    simp [createDomainInterfacesLoop] at h
  | cons iface rest ih =>
    intro domain e d h
    simp only [createDomainInterfacesLoop] at h
    cases hlookup : indexNetworksByName vmi.networks iface.name with
    | none =>
      simp only [hlookup] at h
      simp only [Option.some.injEq, Prod.mk.injEq] at h
      rw [← h.2]
      exact ⟨[], (List.append_nil _).symm⟩
    | some net =>
      simp only [hlookup] at h
      by_cases hsriov : iface.sriov
      · rw [if_pos hsriov] at h
        exact ih domain e d h
      · rw [if_neg hsriov] at h
        cases hpi : processIface c p vmi iface net domain with
        | none =>
          simp only [hpi] at h
          simp at h
        | some res =>
          cases res with
          | error e2 =>
            simp only [hpi] at h
            simp only [Option.some.injEq, Prod.mk.injEq, Except.error.injEq] at h
            rw [← h.2]
            exact ⟨[], (List.append_nil _).symm⟩
          | ok pr =>
            obtain ⟨domainIface, domain2⟩ := pr
            simp only [hpi] at h
            cases hrest : createDomainInterfacesLoop c p vmi rest domain2 with
            | none =>
              simp only [hrest] at h
              simp at h
            | some pr2 =>
              obtain ⟨res2, d3⟩ := pr2
              cases res2 with
              | error e3 =>
                simp only [hrest] at h
                simp only [Option.some.injEq, Prod.mk.injEq, Except.error.injEq] at h
                obtain ⟨he, hd⟩ := h
                obtain ⟨ex1, hex1⟩ := processIface_qemuArg hpi
                obtain ⟨ex2, hex2⟩ := ih domain2 e3 d3 hrest
                exact ⟨ex1 ++ ex2, by rw [← hd, hex2, hex1, List.append_assoc]⟩
              | ok l2 =>
                simp only [hrest] at h
                simp at h

/-! ## Claim theorems -/

/-- C1: for every virtual machine instance spec for which network-type
validation succeeds, every interface name resolves to a declared network
and no fatal error occurs (i.e. `createDomainInterfaces` returns an `ok`
result), the converter returns exactly one domain interface record per
non-SR-IOV interface, in the same relative order as the interfaces
appear in the spec, each with alias equal to the interface name. -/
theorem createDomainInterfaces_one_record_per_nonSriov
    (vmi : v1.VirtualMachineInstance) (domain : api.Domain) (c : ConverterContext)
    (virtioNetProhibited : Bool) (l : List api.Interface) (d : api.Domain)
    (h : createDomainInterfaces vmi domain c virtioNetProhibited = some (.ok l, d)) :
    l.map (fun r => r.alias) =
      (vmi.interfaces.filter fun i => !i.sriov).map
        fun i => some (api.NewUserDefinedAlias i.name) := by
  simp only [createDomainInterfaces] at h
  cases hval : validateNetworksTypes vmi.networks with
  | error e =>
    simp only [hval] at h
    simp at h
  | ok u =>
    simp only [hval] at h
    exact createDomainInterfacesLoop_aliases vmi.interfaces domain l d h

/-- Witness for C1 at a concrete three-interface spec (one SR-IOV). -/
theorem createDomainInterfaces_one_record_per_nonSriov_witness :
    createDomainInterfaces c1vmi ⟨[]⟩ c1ctx false = some (.ok c1list, ⟨[]⟩) ∧
    c1list.map (fun r => r.alias) =
      [some (api.NewUserDefinedAlias "a"), some (api.NewUserDefinedAlias "b")] :=
  ⟨rfl,
    (createDomainInterfaces_one_record_per_nonSriov c1vmi ⟨[]⟩ c1ctx false c1list ⟨[]⟩
      rfl).trans (by rfl)⟩

/-- Witness for C2: the second secondary Multus attachment (declared
after a pod network and a default Multus network) resolves to `net2`,
and the pod network resolves to `eth0`. -/
theorem composePodInterfaceName_primary_and_secondary_witness :
    (isSecondaryMultusNetwork c2netp = false ∧
      ComposePodInterfaceName c2vmi c2netp = .ok "eth0") ∧
    (isSecondaryMultusNetwork c2netm2 = true ∧
      (c2vmi.networks.filter isSecondaryMultusNetwork).findIdx?
        (fun n => n.name == c2netm2.name) = some 1 ∧
      ComposePodInterfaceName c2vmi c2netm2 = .ok "net2") :=
  ⟨⟨rfl, composePodInterfaceName_primary_and_secondary.1 c2vmi c2netp rfl⟩,
   ⟨rfl, rfl,
    (composePodInterfaceName_primary_and_secondary.2 c2vmi c2netm2 1 rfl rfl).trans (by rfl)⟩⟩

/-- C8 (amended): on a fatal error the converter returns only the error
and no partial interface list, but the domain's QEMU command-line
argument sequence is not rolled back: it is the input sequence extended
by the arguments appended for interfaces processed before the failure. -/
theorem createDomainInterfaces_error_qemuArgs_extended
    (vmi : v1.VirtualMachineInstance) (domain : api.Domain) (c : ConverterContext)
    (virtioNetProhibited : Bool) (e : String) (d : api.Domain)
    (h : createDomainInterfaces vmi domain c virtioNetProhibited = some (.error e, d)) :
    ∃ extra, d.qemuArg = domain.qemuArg ++ extra := by
  simp only [createDomainInterfaces] at h
  cases hval : validateNetworksTypes vmi.networks with
  | error e2 =>
    simp only [hval] at h
    simp only [Option.some.injEq, Prod.mk.injEq, Except.error.injEq] at h
    exact ⟨[], by rw [← h.2, List.append_nil]⟩
  | ok u =>
    simp only [hval] at h
    exact createDomainInterfacesLoop_error_qemuArg vmi.interfaces domain e d h

/-- C8 counterexample: a slirp interface followed by a failing macvtap
interface makes the conversion return a fatal error while the domain's
QEMU argument sequence has been mutated (it is no longer the input
empty sequence), refuting "leaves all caller-visible state unchanged,
including the domain's QEMU command-line argument sequence". -/
theorem createDomainInterfaces_error_mutates_qemuArgs_counterexample :
    createDomainInterfaces c8vmi ⟨[]⟩ c8ctx false =
      some (.error "macvtap interface n2 requires Multus meta-cni", c8dom) ∧
    c8dom ≠ (⟨[]⟩ : api.Domain) :=
  ⟨rfl, by decide⟩

/-- Witness for the amended C8 at the same failing conversion: the final
argument sequence is the input sequence extended by the slirp
arguments. -/
theorem createDomainInterfaces_error_qemuArgs_extended_witness :
    createDomainInterfaces c8vmi ⟨[]⟩ c8ctx false =
      some (.error "macvtap interface n2 requires Multus meta-cni", c8dom) ∧
    ∃ extra, c8dom.qemuArg = (⟨[]⟩ : api.Domain).qemuArg ++ extra :=
  ⟨rfl,
    createDomainInterfaces_error_qemuArgs_extended c8vmi ⟨[]⟩ c8ctx false
      "macvtap interface n2 requires Multus meta-cni" c8dom rfl⟩

/-- C4 (amended): the port-forward builder defaults an empty protocol to
TCP, rejects port 0 with a configuration error, and deduplicates by the
rendered `<protocol>-<port>` key; whenever all ports are positive this
coincides with deduplication by the (protocol, port) pair, appending
`hostfwd=<lowercase protocol>::<port>-:<port>` exactly once per unique
pair in first-seen order. -/
theorem configPortForward_dedup_amended :
    (∀ (va : String) (iface : v1.Interface),
      (∃ p ∈ iface.ports, p.port = 0) →
      configPortForward va iface = .error "Port must be configured") ∧
    (∀ (va : String) (iface : v1.Interface),
      (∀ p ∈ iface.ports, 0 < p.port) →
      configPortForward va iface = .ok (va ++ specHostfwdClauses iface.ports [])) := by
  constructor
  · intro va iface h
    exact configPortForwardGo_zero iface.ports va [] h
  · intro va iface h
    have h2 := configPortForwardGo_eq_spec iface.ports va [] (by simp) h
    simpa [configPortForward] using h2

/-- Witness for the amended C4: the ports `[{80, ""}, {80, "TCP"}]` are
all positive and yield the single clause `hostfwd=tcp::80-:80`. -/
theorem configPortForward_dedup_amended_witness :
    (∀ p ∈ c4iface.ports, 0 < p.port) ∧
    configPortForward "user,id=testnet" c4iface = .ok "user,id=testnet,hostfwd=tcp::80-:80" :=
  ⟨by decide,
    (configPortForward_dedup_amended.2 "user,id=testnet" c4iface (by decide)).trans (by rfl)⟩

/-- C4 counterexample: the two forwards have distinct (protocol, port)
pairs, yet the builder emits a single `hostfwd=` clause, because its
dedup key `<protocol>-<port>` renders both pairs as `A--2`; this refutes
deduplication by (protocol, port) pair as stated. -/
theorem configPortForward_pair_dedup_counterexample :
    configPortForward "user,id=x" c4exotic = .ok "user,id=x,hostfwd=a-::2-:2" ∧
    ("A-", (2 : Int)) ≠ ("A", (-2 : Int)) ∧
    c4exotic.ports = [{ protocol := "A-", port := 2 }, { protocol := "A", port := -2 }] :=
  ⟨rfl, by decide, rfl⟩

/-- C6: a slirp-bound interface whose requested model is neither e1000
nor rtl8139 (including unset and virtio) is emitted with effective model
e1000 and the non-fatal downgrade warning is logged; a non-slirp
interface keeps its explicit model, defaulting to virtio when unset. -/
theorem slirp_model_downgrade :
    (∀ (c : ConverterContext) (p : Bool) (vmi : v1.VirtualMachineInstance)
       (iface : v1.Interface) (net : v1.Network) (domain : api.Domain)
       (rec : api.Interface) (d2 : api.Domain),
      iface.slirp = true → iface.model ≠ "e1000" → iface.model ≠ "rtl8139" →
      processIface c p vmi iface net domain = some (.ok (rec, d2)) →
      rec.model = some { type := "e1000" } ∧ getInterfaceTypeWarning iface = true) ∧
    (∀ iface : v1.Interface, iface.slirp = false →
      getInterfaceType iface = if iface.model = "" then "virtio" else iface.model) := by
  constructor
  · intro c p vmi iface net domain rec d2 hs h1 h2 h
    have heff : getInterfaceType iface = "e1000" := by
      simp only [getInterfaceType, hs, if_true]
      rw [if_pos]
      simp [h1, h2]
    constructor
    · rw [processIface_model h, heff]
      rfl
    · simp [getInterfaceTypeWarning, hs, h1, h2]
  · intro iface hs
    simp only [getInterfaceType, hs, Bool.false_eq_true, if_false]
    by_cases hm : iface.model = ""
    · simp [hm]
    · simp [hm]

/-- Witness for C6: a slirp interface requesting model virtio is emitted
with model e1000 and the warning predicate holds. -/
theorem slirp_model_downgrade_witness :
    processIface c6ctx false c6vmi c6iface c6net ⟨[]⟩ = some (.ok (c6rec, c6dom)) ∧
    (c6rec.model = some { type := "e1000" } ∧ getInterfaceTypeWarning c6iface = true) :=
  ⟨rfl,
    slirp_model_downgrade.1 c6ctx false c6vmi c6iface c6net ⟨[]⟩ c6rec c6dom rfl
      (by decide) (by decide) rfl⟩

set_option maxHeartbeats 2000000 in
/-- C5 (amended): for every interface whose effective model is virtio,
with multi-queue requested and virtio emulation not prohibited, and
whose binding is not vhost-user, the emitted record carries driver
backend name "vhost" and a queue count equal to the requested vCPU count
capped at the tap-device maximum; a vhost-user-bound interface instead
has its driver replaced by the fixed 1024 rx/tx queue sizes. -/
theorem virtio_multiqueue_driver_amended
    {c : ConverterContext} {p : Bool} {vmi : v1.VirtualMachineInstance}
    {iface : v1.Interface} {net : v1.Network} {domain : api.Domain}
    {rec : api.Interface} {d2 : api.Domain}
    (hmodel : getInterfaceType iface = "virtio")
    (hmq : vmi.networkInterfaceMultiQueue = some true)
    (hp : p = false)
    (hnv : iface.vhostuser = false)
    (h : processIface c p vmi iface net domain = some (.ok (rec, d2))) :
    rec.driver = some
      { name := "vhost",
        queues := some (CalculateNetworkQueues vmi c.multiQueueMaxQueues),
        rxQueueSize := none,
        txQueueSize := none } := by
  subst hp
  simp only [processIface, hmodel, hmq, hnv, Bool.and_false, Bool.false_eq_true, if_false,
    beq_self_eq_true, Bool.and_true, if_true] at h
  repeat' split at h
  all_goals simp only [Option.some.injEq, Except.ok.injEq, Prod.mk.injEq,
    reduceCtorEq] at h
  all_goals try (obtain ⟨hrec, hdom⟩ := h; subst hrec)
  all_goals rfl

/-- C5 counterexample: a vhost-user-bound interface with effective model
virtio, multi-queue requested and emulation permitted is emitted with
the fixed 1024 rx/tx driver — no "vhost" backend name and no queue
count — because the vhost-user branch overwrites the driver. -/
theorem virtio_multiqueue_driver_counterexample :
    getInterfaceType c5iface = "virtio" ∧
    c5vmi.networkInterfaceMultiQueue = some true ∧
    processIface c5ctx false c5vmi c5iface c5net ⟨[]⟩ = some (.ok (c5rec, ⟨[]⟩)) ∧
    c5rec.driver = some vhostDriverFixed :=
  ⟨rfl, rfl, rfl, rfl⟩

/-- Witness for the amended C5: a bridge-bound virtio interface with 64
requested vCPUs and tap maximum 8 gets driver `vhost` with queue count
capped at 8. -/
theorem virtio_multiqueue_driver_amended_witness :
    getInterfaceType c5wiface = "virtio" ∧
    processIface c5ctx false c5wvmi c5wiface c5wnet ⟨[]⟩ = some (.ok (c5wrec, ⟨[]⟩)) ∧
    c5wrec.driver = some
      { name := "vhost", queues := some 8, rxQueueSize := none, txQueueSize := none } :=
  ⟨rfl, rfl,
    (@virtio_multiqueue_driver_amended c5ctx false c5wvmi c5wiface c5wnet ⟨[]⟩ c5wrec ⟨[]⟩
      rfl rfl rfl rfl rfl).trans (by rfl)⟩

set_option maxHeartbeats 1000000 in
/-- C7 (amended): a macvtap-bound interface fails with the configuration
error exactly when the resolved network has no Multus configuration (a
pod network); a Multus network is accepted even when it is marked as the
default (non-secondary) one, and the record then has type ethernet, the
boot order attached when set, and the expansion ROM disabled when boot
order is unset. -/
theorem macvtap_requires_multus_amended
    {c : ConverterContext} {p : Bool} {vmi : v1.VirtualMachineInstance}
    {iface : v1.Interface} {net : v1.Network} {domain : api.Domain}
    (hb : iface.bridge = false) (hm : iface.masquerade = false)
    (hs : iface.slirp = false) (hmv : iface.macvtap = true)
    (hpci : iface.pciAddress = "")
    (hp : getInterfaceType iface = "virtio" → p = false) :
    (net.multus = none →
      processIface c p vmi iface net domain =
        some (.error s!"macvtap interface {iface.name} requires Multus meta-cni")) ∧
    (∀ m, net.multus = some m →
      ∃ rec, processIface c p vmi iface net domain = some (.ok (rec, domain)) ∧
        rec.type = "ethernet" ∧
        (∀ o, iface.bootOrder = some o → rec.bootOrder = some { order := o }) ∧
        (iface.bootOrder = none → rec.rom = some { enabled := "no" })) := by
  have hc1 : (getInterfaceType iface == "virtio" && p) = false := by
    by_cases hv : getInterfaceType iface = "virtio"
    · rw [hp hv]
      simp
    · simp [beq_iff_eq, hv]
  constructor
  · intro hnone
    simp only [processIface, hc1, Bool.false_eq_true, if_false, hpci, hb, hm, hs, hmv,
      Bool.or_self, bne_self_eq_false, if_true, hnone]
  · intro m hsome
    simp only [processIface, hc1, Bool.false_eq_true, if_false, hpci, hb, hm, hs, hmv,
      Bool.or_self, bne_self_eq_false, if_true, hsome]
    cases hbo : iface.bootOrder with
    | some o0 =>
      refine ⟨_, rfl, rfl, ?_, ?_⟩
      · intro o ho
        injection ho with ho2
        subst ho2
        rfl
      · intro hn
        exact absurd hn (by simp)
    | none =>
      refine ⟨_, rfl, rfl, ?_, ?_⟩
      · intro o ho
        exact absurd ho (by simp)
      · intro hn
        rfl

/-- C7 counterexample: a macvtap interface whose resolved network is a
Multus network marked as default — hence not a secondary multi-network
attachment — is accepted and converted to an ethernet record, refuting
"fails whenever the resolved network is not a secondary multi-network
attachment"; the code only requires the Multus field to be non-nil. -/
theorem macvtap_default_multus_accepted_counterexample :
    isSecondaryMultusNetwork c7net = false ∧
    processIface c7ctx false c7vmi c7iface c7net ⟨[]⟩ = some (.ok (c7rec, ⟨[]⟩)) :=
  ⟨rfl, rfl⟩

/-- Witness for the amended C7: a macvtap interface on a pod network
fails with the configuration error, and on a (default) Multus network is
emitted as an ethernet record with the ROM disabled. -/
theorem macvtap_requires_multus_amended_witness :
    processIface c7ctx false c7vmi c7wiface c7wnetp ⟨[]⟩ =
      some (.error "macvtap interface m2 requires Multus meta-cni") ∧
    ∃ rec, processIface c7ctx false c7vmi c7wiface c7wnetm ⟨[]⟩ =
      some (.ok (rec, ⟨[]⟩)) ∧ rec.type = "ethernet" ∧ rec.rom = some { enabled := "no" } := by
  constructor
  · exact ((@macvtap_requires_multus_amended c7ctx false c7vmi c7wiface c7wnetp ⟨[]⟩
      rfl rfl rfl rfl rfl (fun _ => rfl)).1 rfl).trans (by rfl)
  · obtain ⟨rec, h1, h2, h3, h4⟩ :=
      (@macvtap_requires_multus_amended c7ctx false c7vmi c7wiface c7wnetm ⟨[]⟩
        rfl rfl rfl rfl rfl (fun _ => rfl)).2 { networkName := "nadm2", default := true } rfl
    exact ⟨rec, h1, h2, h4 rfl⟩

set_option maxHeartbeats 1000000 in
/-- C3: for every vhost-user-bound interface whose device-info lookup
succeeds with socket path `path` and mode `mode`, the emitted record has
target.device equal to the final path segment, source of kind unix with
path identical to the reported path when it contains a directory
component (prefixed with the fixed socket-directory base when it does
not), source mode equal to the reported mode, and fixed 1024 receive and
transmit driver queue sizes; the domain is left unchanged. -/
theorem vhostuser_record_fields
    {c : ConverterContext} {p : Bool} {vmi : v1.VirtualMachineInstance}
    {iface : v1.Interface} {net : v1.Network} {domain : api.Domain}
    {rec : api.Interface} {d2 : api.Domain}
    {r : Except String String} {path mode : String}
    (hb : iface.bridge = false) (hm : iface.masquerade = false)
    (hs : iface.slirp = false) (hmv : iface.macvtap = false)
    (hv : iface.vhostuser = true)
    (hr : getPodInterfaceName vmi iface.name = some r)
    (hlk : getVhostuserInfo (podNameOrEmpty r) c = .ok (path, mode))
    (h : processIface c p vmi iface net domain = some (.ok (rec, d2))) :
    rec.target = some { device := String.mk (lastSeg '/' path.data) } ∧
    ('/' ∈ path.data → rec.source = { type := "unix", path := path, mode := mode }) ∧
    ('/' ∉ path.data →
      rec.source = { type := "unix", path := services.VhostuserSocketDir ++ path, mode := mode }) ∧
    rec.driver = some vhostDriverFixed ∧
    d2 = domain := by
  simp only [processIface, hb, hm, hs, hmv, hv, hr, hlk, Bool.or_self, Bool.false_eq_true,
    if_false, if_true] at h
  by_cases hvp : (getInterfaceType iface == "virtio" && p) = true
  · rw [if_pos hvp] at h
    simp at h
  · rw [if_neg hvp] at h
    repeat' split at h
    all_goals simp only [Option.some.injEq, Except.ok.injEq, Prod.mk.injEq,
      reduceCtorEq] at h
    all_goals obtain ⟨hrec, hdom⟩ := h
    all_goals subst hrec
    all_goals refine ⟨by rw [← splitChar_getLastD], ?_, ?_, rfl, hdom.symm⟩
    all_goals intro hmem
    all_goals first
      | rfl
      | exact absurd hmem ((splitChar_length_one_iff '/' path.data).1
          ‹(splitChar '/' path.data).length = 1›)
      | exact absurd ((splitChar_length_one_iff '/' path.data).2 hmem)
          ‹¬(splitChar '/' path.data).length = 1›

/-- Witness for C3: the reported socket path `/var/run/vhu/vhu1.sock`
yields `target.device == "vhu1.sock"` and a source path identical to the
reported path. -/
theorem vhostuser_record_fields_witness :
    getPodInterfaceName c3vmi "default" = some (.ok "eth0") ∧
    getVhostuserInfo "eth0" c3ctx = .ok ("/var/run/vhu/vhu1.sock", "server") ∧
    processIface c3ctx false c3vmi c3iface c3net ⟨[]⟩ = some (.ok (c3rec, ⟨[]⟩)) ∧
    c3rec.target = some { device := "vhu1.sock" } ∧
    c3rec.source.path = "/var/run/vhu/vhu1.sock" := by
  have h := @vhostuser_record_fields c3ctx false c3vmi c3iface c3net ⟨[]⟩ c3rec ⟨[]⟩
    (.ok "eth0") "/var/run/vhu/vhu1.sock" "server" rfl rfl rfl rfl rfl rfl rfl rfl
  refine ⟨rfl, rfl, rfl, ?_, ?_⟩
  · exact h.1.trans (by rfl)
  · rw [h.2.1 (by decide)]

set_option maxHeartbeats 1000000 in
/-- C9: for a vhost-user-bound interface, a failure of the pod-level
interface name resolver is only logged and does not by itself abort the
conversion: processing continues with the empty pod interface name, and
the conversion step fails exactly when the subsequent vhost-user
device-info lookup for the empty name fails, with that lookup error. -/
theorem vhostuser_resolver_failure_nonfatal
    {c : ConverterContext} {p : Bool} {vmi : v1.VirtualMachineInstance}
    {iface : v1.Interface} {net : v1.Network} {domain : api.Domain} {msg : String}
    (hb : iface.bridge = false) (hm : iface.masquerade = false)
    (hs : iface.slirp = false) (hmv : iface.macvtap = false)
    (hv : iface.vhostuser = true)
    (hpci : iface.pciAddress = "")
    (hp : getInterfaceType iface = "virtio" → p = false)
    (hr : getPodInterfaceName vmi iface.name = some (.error msg)) :
    (∀ e, getVhostuserInfo "" c = .error e →
      processIface c p vmi iface net domain = some (.error e)) ∧
    (∀ path mode, getVhostuserInfo "" c = .ok (path, mode) →
      ∃ rec, processIface c p vmi iface net domain = some (.ok (rec, domain))) := by
  have hc1 : (getInterfaceType iface == "virtio" && p) = false := by
    by_cases hvv : getInterfaceType iface = "virtio"
    · rw [hp hvv]
      simp
    · simp [beq_iff_eq, hvv]
  constructor
  · intro e he
    simp only [processIface, hc1, Bool.false_eq_true, if_false, hpci, hb, hm, hs, hmv, hv,
      Bool.or_self, bne_self_eq_false, if_true, hr, podNameOrEmpty, he]
  · intro path mode hok
    simp only [processIface, hc1, Bool.false_eq_true, if_false, hpci, hb, hm, hs, hmv, hv,
      Bool.or_self, bne_self_eq_false, if_true, hr, podNameOrEmpty, hok]
    exact ⟨_, rfl⟩

/-- Witness for C9: the resolver fails for interface `b` (attached to no
declared network), the failure is non-fatal, and the record is emitted
because the device-info lookup succeeds for the empty pod interface
name. -/
theorem vhostuser_resolver_failure_nonfatal_witness :
    getPodInterfaceName c9vmi "b" = some (.error "Interface b not found") ∧
    getVhostuserInfo "" c9ctx = .ok ("/run/vh/s1.sock", "client") ∧
    ∃ rec, processIface c9ctx false c9vmi c9iface c9net ⟨[]⟩ = some (.ok (rec, ⟨[]⟩)) :=
  ⟨rfl, rfl,
    (@vhostuser_resolver_failure_nonfatal c9ctx false c9vmi c9iface c9net ⟨[]⟩
      "Interface b not found" rfl rfl rfl rfl rfl rfl (fun _ => rfl) rfl).2
      "/run/vh/s1.sock" "client" rfl⟩

/-- C10 (code bug): for a spec declaring a pod network `n1` with no
interface of that name, `FindInterfaceByNetworkName` returns nil and
`getPodInterfaceName` dereferences it without a check — the model
returns the panic marker `none` instead of a name or an error, so the
function does not satisfy "either returns a pod interface name or
returns an error". -/
theorem getPodInterfaceName_nil_dereference :
    FindInterfaceByNetworkName c10vmi c10net = none ∧
    getPodInterfaceName c10vmi "n1" = none :=
  ⟨rfl, rfl⟩

end KubeVirtNet
